import Mathlib

/-
  Shallow embedding of src/iot_simulator.py (Constyk20/traffic-backend).

  The Python module synthesizes per-location traffic telemetry and delivers
  it to a remote endpoint with bounded retries.  Pure computations
  (pattern lookup, prediction, vehicle-count scaling) are embedded as Lean
  functions; the stateful delivery loop is embedded as a recursive function
  over an environment that records, per attempt index, the network outcome
  and the value of the process-wide running flag observed at each check
  point.  Machine integers are Nat/Int; Python float factors are exact
  rationals; Python int() truncation is the function pyint below.
-/

namespace TrafficBackend

/-! ## Configuration constants (src/iot_simulator.py lines 126-128) -/

def INTERVAL : Nat := 30

def MAX_RETRIES : Nat := 3

def RETRY_BACKOFF : Nat := 2

/-! ## Traffic patterns (lines 131-138)

Python dict iteration preserves insertion order, so TRAFFIC_PATTERNS is an
ordered list here. -/

structure TrafficPattern where
  name : String
  hour_range : Nat × Nat
  vehicles : Nat × Nat
deriving Repr, DecidableEq

def TRAFFIC_PATTERNS : List TrafficPattern :=
  [⟨"early_morning", (5, 7), (20, 60)⟩,
   ⟨"morning_peak", (7, 10), (80, 200)⟩,
   ⟨"midday", (10, 13), (40, 120)⟩,
   ⟨"afternoon_peak", (13, 16), (70, 180)⟩,
   ⟨"evening", (16, 19), (50, 140)⟩,
   ⟨"night", (19, 5), (10, 50)⟩]

/-- Match test of one rule against an hour, as in the loop body of
get_current_traffic_pattern (lines 183-190): non-wrapping rule when
start < end, otherwise the overnight wrap-around test. -/
def pattern_matches (hour : Nat) (p : TrafficPattern) : Bool :=
  if p.hour_range.1 < p.hour_range.2 then
    decide (p.hour_range.1 ≤ hour) && decide (hour < p.hour_range.2)
  else
    decide (hour ≥ p.hour_range.1) || decide (hour < p.hour_range.2)

/-- get_current_traffic_pattern (lines 181-192): first matching rule wins;
if none matches, fall back to the vehicles range of the rule named night
(the Python indexes TRAFFIC_PATTERNS with the key night, which exists). -/
def get_current_traffic_pattern (hour : Nat) : Nat × Nat :=
  match TRAFFIC_PATTERNS.find? (pattern_matches hour) with
  | some p => p.vehicles
  | none =>
    match TRAFFIC_PATTERNS.find? (fun p => p.name == "night") with
    | some p => p.vehicles
    | none => (0, 0)

/-! ## Sample generator: special events, generate_prediction,
get_vehicle_count (lines 141-146 and 194-255) -/

/-- Python int() truncation toward zero, on an exact rational. -/
def pyint (q : ℚ) : Int := if 0 ≤ q then ⌊q⌋ else -⌊-q⌋

structure SpecialEvent where
  name : String
  probability : ℚ
  multiplier : ℚ × ℚ
deriving Repr, DecidableEq

/-- SPECIAL_EVENTS (lines 141-146); the float bounds are exact
rationals. -/
def SPECIAL_EVENTS : List SpecialEvent :=
  [⟨"accident", (5 : ℚ) / 100, (2, 3)⟩,
   ⟨"road_work", (3 : ℚ) / 100, ((3 : ℚ) / 2, 2)⟩,
   ⟨"event", (2 : ℚ) / 100, ((9 : ℚ) / 5, (5 : ℚ) / 2)⟩,
   ⟨"rain", (8 : ℚ) / 100, ((13 : ℚ) / 10, (9 : ℚ) / 5)⟩]

/-- check_special_events (lines 194-202) with its randomness passed in:
one (roll, sampled multiplier) pair per event rule, in rule order.  A
rule triggers when its roll is below its probability; triggered sampled
multipliers compound into a running product starting at 1. -/
def check_special_events (draws : List (ℚ × ℚ)) : ℚ :=
  (SPECIAL_EVENTS.zip draws).foldl
    (fun multiplier p =>
      if p.2.1 < p.1.probability then multiplier * p.2.2 else multiplier) 1

/-- Support of the randomness consumed by check_special_events: each roll
comes from random.random(), so lies in [0,1), and each sampled
multiplier comes from random.uniform over the rule's multiplier range,
so lies within that range. -/
def valid_event_draws (draws : List (ℚ × ℚ)) : Prop :=
  ∀ p ∈ SPECIAL_EVENTS.zip draws,
    0 ≤ p.2.1 ∧ p.2.1 < 1 ∧ p.1.multiplier.1 ≤ p.2.2 ∧ p.2.2 ≤ p.1.multiplier.2

/-- Bounds of the trend draw in generate_prediction (lines 210-215):
random.randint(5,20) in the morning-ramp window, randint(5,15) in the
evening-ramp window, randint(-10,10) otherwise. -/
def trend_range (hour : Nat) : Int × Int :=
  if 6 ≤ hour ∧ hour < 9 then (5, 20)
  else if 16 ≤ hour ∧ hour < 19 then (5, 15)
  else (-10, 10)

/-- generate_prediction (lines 204-221) with the two random draws (the
trend and the prediction_variation) passed in.  Note the floor at 10 is
applied twice: once after adding the trend (line 217) and once more
after adding the variation (line 221). -/
def generate_prediction (current_vehicles : Int) (hour : Nat)
    (trend prediction_variation : Int) : Int :=
  let base_prediction := current_vehicles
  let prediction := max 10 (base_prediction + trend)
  max 10 (prediction + prediction_variation)

/-- Modelled from the spec narrative (section 4.2 step 5), for comparison
with generate_prediction: start from vehicles, add the trend term, add
the noise term, floor the final result at 10 once. -/
def spec_prediction (current_vehicles trend prediction_variation : Int) : Int :=
  max 10 (current_vehicles + trend + prediction_variation)

/-- The location_factors dict of get_vehicle_count (lines 229-238). -/
def location_factors : List (String × ℚ) :=
  [("Ikeja", (12 : ℚ) / 10), ("Victoria Island", (13 : ℚ) / 10),
   ("Lekki", (11 : ℚ) / 10), ("Apapa", (14 : ℚ) / 10),
   ("Marina", (9 : ℚ) / 10), ("Surulere", 1),
   ("Yaba", (11 : ℚ) / 10), ("Ikoyi", (8 : ℚ) / 10)]

/-- location_factors.get(location, 1.0) (line 240). -/
def location_factor (location : String) : ℚ :=
  match location_factors.find? (fun p => p.1 == location) with
  | some p => p.2
  | none => 1

/-- random.randint(a, b) (line 250): returns an integer uniformly drawn
from [a, b]; raises ValueError when b < a, modelled as none.  The seed
selects the drawn value; every value of a nonempty range is reached by
some seed. -/
def randint (a b : Int) (seed : Nat) : Option Int :=
  if b < a then none else some (a + (seed : Int) % (b - a + 1))

/-- The integer range get_vehicle_count draws from (lines 226-247): the
base pattern range of the hour, both bounds multiplied by the location
factor and truncated with int(), then both bounds multiplied by the
special-event multiplier and truncated with int(). -/
def gvc_final_range (hour : Nat) (location : String)
    (eventDraws : List (ℚ × ℚ)) : Int × Int :=
  let pat := get_current_traffic_pattern hour
  let lf := location_factor location
  let adjusted_min := pyint ((pat.1 : ℚ) * lf)
  let adjusted_max := pyint ((pat.2 : ℚ) * lf)
  let event_multiplier := check_special_events eventDraws
  (pyint ((adjusted_min : ℚ) * event_multiplier),
   pyint ((adjusted_max : ℚ) * event_multiplier))

/-- get_vehicle_count (lines 223-255) with all randomness passed in:
draw current_vehicles from the final integer range (none models the
ValueError randint raises on an empty range), then generate the
prediction from it. -/
def get_vehicle_count (hour : Nat) (location : String)
    (eventDraws : List (ℚ × ℚ)) (vehicleSeed : Nat)
    (trend prediction_variation : Int) : Option (Int × Int) :=
  match randint (gvc_final_range hour location eventDraws).1
      (gvc_final_range hour location eventDraws).2 vehicleSeed with
  | none => none
  | some current_vehicles =>
    some (current_vehicles,
      generate_prediction current_vehicles hour trend prediction_variation)

/-! ## Stats aggregate (lines 155-166) and its thread-safe mutators
(lines 170-179).

The Python stores the counters in a dict guarded by a lock; here they are
a structure and each mutation is a record update.  The lock makes every
increment atomic, so a sequential composition of the same mutations
yields the same counter values; start_time, backend_url and
update_interval are constants never mutated and are omitted.  Timestamps
are abstract Nat values supplied by the environment. -/

structure Stats where
  successful_requests : Nat
  failed_requests : Nat
  total_requests : Nat
  last_success : Option Nat
  locations_sent : Nat
  batch_count : Nat
  status : String
deriving Repr, DecidableEq

/-- The initial stats dict built in TrafficSimulator.__init__ (lines
155-166), restricted to the modelled fields. -/
def stats_init : Stats :=
  { successful_requests := 0, failed_requests := 0, total_requests := 0,
    last_success := none, locations_sent := 0, batch_count := 0,
    status := "running" }

def increment_stat_total (s : Stats) : Stats :=
  { s with total_requests := s.total_requests + 1 }

def increment_stat_successful (s : Stats) : Stats :=
  { s with successful_requests := s.successful_requests + 1 }

def increment_stat_failed (s : Stats) : Stats :=
  { s with failed_requests := s.failed_requests + 1 }

def update_stat_last_success (s : Stats) (t : Nat) : Stats :=
  { s with last_success := some t }

def update_stat_status (s : Stats) (v : String) : Stats :=
  { s with status := v }

def update_stat_locations_sent (s : Stats) (n : Nat) : Stats :=
  { s with locations_sent := n }

def increment_stat_batch_count (s : Stats) : Stats :=
  { s with batch_count := s.batch_count + 1 }

/-! ## Delivery worker: send_traffic_data_for_location (lines 257-309) -/

/-- Outcome of one session.post call: an HTTP response with a status code
and a flag telling whether its body parses as JSON, or one of the three
caught transport exceptions (lines 289-299). -/
inductive AttemptOutcome where
  | response (code : Nat) (bodyParses : Bool)
  | timeout
  | connectionError
  | requestError
deriving Repr, DecidableEq

/-- Status check of line 272: the attempt succeeded iff a response arrived
with code 200 or 201.  Every other outcome falls into the else branch or
an except branch, all of which do retries += 1. -/
def response_is_success : AttemptOutcome → Bool
  | .response code _ => code == 200 || code == 201
  | _ => false

/-- Environment of one worker invocation: the outcome the network would
return for the attempt with index k, the value of the shared running flag
as observed at the loop-top check of iteration k (line 261) and at the
backoff check after the k-th retry increment (line 302), and the clock
read on a success (line 274).  The attempt index equals the value of
retries at that iteration, since retries grows by exactly one per
non-returning iteration. -/
structure DeliveryEnv where
  outcomes : Nat → AttemptOutcome
  runningAtLoop : Nat → Bool
  runningAtSleep : Nat → Bool
  now : Nat → Nat

/-- Result of one worker invocation: the returned Bool, the stats after
the invocation, the number of network attempts issued, and the list of
backoff sleep durations in order. -/
structure SendResult where
  ok : Bool
  stats : Stats
  attempts : Nat
  sleeps : List Nat
deriving Repr, DecidableEq

/-- The while loop of lines 261-305.  fuel is MAX_RETRIES - retries; the
loop guard retries < MAX_RETRIES fails exactly when fuel runs out, so the
fuel-zero arm is the same loop-exit path (lines 307-309) as the guard
failing.  Each iteration: increment total_requests, issue the attempt; on
success increment successful_requests and record last_success, returning
true; otherwise retries += 1 and, when retries < MAX_RETRIES and the
running flag is still observed set, sleep RETRY_BACKOFF ^ retries.  After
the loop, increment failed_requests and return false. -/
def send_loop (env : DeliveryEnv) (fuel retries : Nat) (s : Stats)
    (attempts : Nat) (sleeps : List Nat) : SendResult :=
  match fuel with
  | 0 =>
    { ok := false, stats := increment_stat_failed s,
      attempts := attempts, sleeps := sleeps }
  | fuel + 1 =>
    if decide (retries < MAX_RETRIES) && env.runningAtLoop retries then
      let s1 := increment_stat_total s
      if response_is_success (env.outcomes retries) then
        { ok := true,
          stats := update_stat_last_success (increment_stat_successful s1)
            (env.now retries),
          attempts := attempts + 1, sleeps := sleeps }
      else
        let retries1 := retries + 1
        let sleeps1 :=
          if decide (retries1 < MAX_RETRIES) && env.runningAtSleep retries1 then
            sleeps ++ [RETRY_BACKOFF ^ retries1]
          else sleeps
        send_loop env fuel retries1 s1 (attempts + 1) sleeps1
    else
      { ok := false, stats := increment_stat_failed s,
        attempts := attempts, sleeps := sleeps }

/-- send_traffic_data_for_location (lines 257-309): run the retry loop
from retries = 0 on the current stats. -/
def send_traffic_data_for_location (env : DeliveryEnv) (s : Stats) : SendResult :=
  send_loop env MAX_RETRIES 0 s 0 []

/-! ## Batch dispatcher: send_data_for_all_locations (lines 311-348)

The monitored locations (lines 116-125); coordinates are exact rationals
of the Python float literals. -/

def LOCATIONS : List (String × ℚ × ℚ) :=
  [("Ikeja", (65998 : ℚ) / 10000, (33460 : ℚ) / 10000),
   ("Victoria Island", (64295 : ℚ) / 10000, (34236 : ℚ) / 10000),
   ("Surulere", (65537 : ℚ) / 10000, (33660 : ℚ) / 10000),
   ("Lekki", (64654 : ℚ) / 10000, (35660 : ℚ) / 10000),
   ("Apapa", (64489 : ℚ) / 10000, (33590 : ℚ) / 10000),
   ("Marina", (64434 : ℚ) / 10000, (34000 : ℚ) / 10000),
   ("Yaba", (65095 : ℚ) / 10000, (33711 : ℚ) / 10000),
   ("Ikoyi", (64522 : ℚ) / 10000, (34358 : ℚ) / 10000)]

/-- One delivery environment per location name. -/
structure BatchEnv where
  deliveries : String → DeliveryEnv

/-- send_data_for_all_locations (lines 311-348) restricted to its effect
on the Stats aggregate.  The Python generates a sample and a payload per
location (lines 320-332), which write no stats, then starts one delivery
thread per location and joins them all; since every stats mutation is
performed atomically under the lock and the counter updates commute, the
joined counter state equals the sequential composition of the
per-location deliveries, taken here in LOCATIONS order.  After the join
it sets locations_sent to the location count and increments batch_count
(lines 346-347). -/
def send_data_for_all_locations (benv : BatchEnv) (s : Stats) : Stats :=
  let joined := LOCATIONS.foldl
    (fun acc loc => (send_traffic_data_for_location (benv.deliveries loc.1) acc).stats) s
  increment_stat_batch_count (update_stat_locations_sent joined LOCATIONS.length)

/-! ## Scheduler loop: run_simulation (lines 372-408)

One iteration of the while loop (lines 382-395) runs a batch, prints the
stats when batch_count is a multiple of 5, and tick-sleeps.  The loop
interacts with its surroundings through events: a normal batch iteration,
the /stop route (lines 83-93) clearing the running flag and recording
status stopped_by_api, a KeyboardInterrupt delivered to the loop
(lines 397-400), or an unexpected exception (lines 402-404).  print_stats
(lines 356-370) only reads a snapshot of the stats, so a report is
modelled as the Stats value it snapshots. -/

inductive LoopEvent where
  | batch (benv : BatchEnv)
  | stop
  | interrupt
  | fault

structure SimState where
  stats : Stats
  running : Bool

/-- The /stop Flask route (lines 83-93): clears the running flag and sets
status to stopped_by_api. -/
def stop_simulation_route (st : SimState) : SimState :=
  { stats := update_stat_status st.stats "stopped_by_api", running := false }

/-- The try block of run_simulation: while the running flag is set,
process the next event.  A batch iteration appends a stats report when
the incremented batch_count is a multiple of 5 (lines 387-388).  The
KeyboardInterrupt handler writes status stopped and clears the flag
(lines 397-400); the generic exception handler writes status error and
leaves the flag alone (lines 402-404); the flag observed clear at the
loop top exits with no further writes. -/
def run_loop : List LoopEvent → SimState → SimState × List Stats
  | [], st => (st, [])
  | e :: rest, st =>
    if st.running then
      match e with
      | .batch benv =>
        let stats1 := send_data_for_all_locations benv st.stats
        let reports := if stats1.batch_count % 5 == 0 then [stats1] else []
        let tail := run_loop rest { stats := stats1, running := st.running }
        (tail.1, reports ++ tail.2)
      | .stop => run_loop rest (stop_simulation_route st)
      | .interrupt =>
        ({ stats := update_stat_status st.stats "stopped", running := false }, [])
      | .fault =>
        ({ stats := update_stat_status st.stats "error", running := st.running }, [])
    else (st, [])

/-- run_simulation (lines 372-408): the loop followed by the finally
block, which always performs exactly one more stats report on the final
state (line 407). -/
def run_simulation (events : List LoopEvent) (st : SimState) : SimState × List Stats :=
  ((run_loop events st).1, (run_loop events st).2 ++ [(run_loop events st).1.stats])

/-! ## Concrete delivery environments used as test inputs -/

/-- Environment in which the stop flag is observed clear at every check:
the worker is cancelled before its first attempt. -/
def envStopped : DeliveryEnv :=
  { outcomes := fun _ => .response 200 true, runningAtLoop := fun _ => false,
    runningAtSleep := fun _ => false, now := fun _ => 0 }

/-- Environment in which every attempt returns HTTP 200 with a parsable
body and the running flag stays set. -/
def envAllSuccess : DeliveryEnv :=
  { outcomes := fun _ => .response 200 true, runningAtLoop := fun _ => true,
    runningAtSleep := fun _ => true, now := fun _ => 0 }

/-- Environment in which every attempt times out and the running flag
stays set. -/
def envAllFail : DeliveryEnv :=
  { outcomes := fun _ => .timeout, runningAtLoop := fun _ => true,
    runningAtSleep := fun _ => true, now := fun _ => 0 }

/-- Environment in which the first attempt returns HTTP 201 with an
unparsable body. -/
def envSuccessUnparsable : DeliveryEnv :=
  { outcomes := fun _ => .response 201 false, runningAtLoop := fun _ => true,
    runningAtSleep := fun _ => true, now := fun _ => 7 }

/-- Environment in which the first attempt gets a 500 response and the
second attempt succeeds, flag always set: a delivery with one retry. -/
def envFailThenSuccess : DeliveryEnv :=
  { outcomes := fun k => if k = 0 then .response 500 true else .response 200 true,
    runningAtLoop := fun _ => true, runningAtSleep := fun _ => true,
    now := fun _ => 0 }

end TrafficBackend

namespace TrafficBackend

/-- If the running flag is observed false at the top of the loop, the loop
exits immediately: no attempt, no backoff scheduled, failed_requests
incremented once, return false. -/
lemma send_loop_not_running (env : DeliveryEnv) (fuel retries : Nat) (s : Stats)
    (attempts : Nat) (sleeps : List Nat)
    (h : env.runningAtLoop retries = false) :
    send_loop env fuel retries s attempts sleeps
      = { ok := false, stats := increment_stat_failed s,
          attempts := attempts, sleeps := sleeps } := by
  cases fuel <;> simp [send_loop, h]

/-- Counter bookkeeping of one (partial) worker run, by induction on the
loop: attempts only grow; total_requests grows by exactly the number of
attempts issued; a true return adds exactly one success and no failure, a
false return exactly one failure and no success; the fields owned by the
batch dispatcher and the scheduler are untouched. -/
lemma send_loop_delta (env : DeliveryEnv) (fuel : Nat) :
    ∀ (retries : Nat) (s : Stats) (attempts : Nat) (sleeps : List Nat),
      attempts ≤ (send_loop env fuel retries s attempts sleeps).attempts ∧
      (send_loop env fuel retries s attempts sleeps).stats.total_requests
        = s.total_requests
          + ((send_loop env fuel retries s attempts sleeps).attempts - attempts) ∧
      ((send_loop env fuel retries s attempts sleeps).ok = true →
        (send_loop env fuel retries s attempts sleeps).stats.successful_requests
            = s.successful_requests + 1 ∧
        (send_loop env fuel retries s attempts sleeps).stats.failed_requests
            = s.failed_requests ∧
        attempts < (send_loop env fuel retries s attempts sleeps).attempts) ∧
      ((send_loop env fuel retries s attempts sleeps).ok = false →
        (send_loop env fuel retries s attempts sleeps).stats.failed_requests
            = s.failed_requests + 1 ∧
        (send_loop env fuel retries s attempts sleeps).stats.successful_requests
            = s.successful_requests) ∧
      (send_loop env fuel retries s attempts sleeps).stats.locations_sent
        = s.locations_sent ∧
      (send_loop env fuel retries s attempts sleeps).stats.batch_count
        = s.batch_count ∧
      (send_loop env fuel retries s attempts sleeps).stats.status = s.status := by
  induction fuel with
  | zero =>
    intro retries s attempts sleeps
    simp [send_loop, increment_stat_failed]
  | succ n ih =>
    intro retries s attempts sleeps
    simp only [send_loop]
    by_cases hg : (decide (retries < MAX_RETRIES) && env.runningAtLoop retries) = true
    · rw [if_pos hg]
      by_cases hs : response_is_success (env.outcomes retries) = true
      · rw [if_pos hs]
        simp [update_stat_last_success, increment_stat_successful,
          increment_stat_total]
      · rw [if_neg hs]
        have h := ih (retries + 1) (increment_stat_total s) (attempts + 1)
          (if decide (retries + 1 < MAX_RETRIES) && env.runningAtSleep (retries + 1)
            then sleeps ++ [RETRY_BACKOFF ^ (retries + 1)] else sleeps)
        simp only [increment_stat_total] at h ⊢
        obtain ⟨h1, h2, h3, h4, h5, h6, h7⟩ := h
        refine ⟨by omega, by omega, ?_, ?_, by simpa using h5,
          by simpa using h6, by simpa using h7⟩
        · intro hok
          obtain ⟨ha, hb, _⟩ := h3 hok
          exact ⟨by simpa using ha, by simpa using hb, by omega⟩
        · intro hok
          obtain ⟨ha, hb⟩ := h4 hok
          exact ⟨by simpa using ha, by simpa using hb⟩
    · rw [if_neg hg]
      simp [increment_stat_failed]

/-- Folding the per-location deliveries of a batch over any location list
adds exactly one terminal outcome (success or failure) per location to
the success/failure counters and leaves the dispatcher-owned fields
locations_sent, batch_count and status untouched. -/
lemma foldl_deliveries_delta (benv : BatchEnv) (l : List (String × ℚ × ℚ)) :
    ∀ s : Stats,
      (l.foldl (fun acc loc =>
          (send_traffic_data_for_location (benv.deliveries loc.1) acc).stats) s).successful_requests
        + (l.foldl (fun acc loc =>
          (send_traffic_data_for_location (benv.deliveries loc.1) acc).stats) s).failed_requests
        = s.successful_requests + s.failed_requests + l.length ∧
      (l.foldl (fun acc loc =>
          (send_traffic_data_for_location (benv.deliveries loc.1) acc).stats) s).locations_sent
        = s.locations_sent ∧
      (l.foldl (fun acc loc =>
          (send_traffic_data_for_location (benv.deliveries loc.1) acc).stats) s).batch_count
        = s.batch_count ∧
      (l.foldl (fun acc loc =>
          (send_traffic_data_for_location (benv.deliveries loc.1) acc).stats) s).status
        = s.status := by
  induction l with
  | nil =>
    intro s
    simp
  | cons loc t ih =>
    intro s
    have hd := send_loop_delta (benv.deliveries loc.1) MAX_RETRIES 0 s 0 []
    rw [show send_loop (benv.deliveries loc.1) MAX_RETRIES 0 s 0 []
        = send_traffic_data_for_location (benv.deliveries loc.1) s from rfl] at hd
    obtain ⟨_, _, h3, h4, h5, h6, h7⟩ := hd
    have ht := ih (send_traffic_data_for_location (benv.deliveries loc.1) s).stats
    have hone : (send_traffic_data_for_location (benv.deliveries loc.1) s).stats.successful_requests
        + (send_traffic_data_for_location (benv.deliveries loc.1) s).stats.failed_requests
        = s.successful_requests + s.failed_requests + 1 := by
      cases hok : (send_traffic_data_for_location (benv.deliveries loc.1) s).ok
      · have := h4 hok
        omega
      · have := h3 hok
        omega
    simp only [List.foldl_cons, List.length_cons]
    refine ⟨by omega, ?_, ?_, ?_⟩
    · rw [ht.2.1, h5]
    · rw [ht.2.2.1, h6]
    · rw [ht.2.2.2, h7]

/-- C6: for every hour of the day, exactly one pattern rule matches under
the first-match / wrap semantics, the lookup returns the vehicles range of
that first match, and the returned range has min ≤ max.  The first
conjunct being a some-value also shows the night fallback branch is
reachable only if no rule matches, which never happens for h < 24. -/
theorem pattern_lookup_total (h : Nat) (hh : h < 24) :
    (TRAFFIC_PATTERNS.filter (pattern_matches h)).length = 1 ∧
    (TRAFFIC_PATTERNS.find? (pattern_matches h)).map TrafficPattern.vehicles
      = some (get_current_traffic_pattern h) ∧
    (get_current_traffic_pattern h).1 ≤ (get_current_traffic_pattern h).2 := by
  revert hh
  revert h
  decide

/-- Witness for pattern_lookup_total at hour 8 (morning peak). -/
theorem pattern_lookup_total_witness :
    (8 < 24) ∧
    ((TRAFFIC_PATTERNS.filter (pattern_matches 8)).length = 1 ∧
     (TRAFFIC_PATTERNS.find? (pattern_matches 8)).map TrafficPattern.vehicles
       = some (get_current_traffic_pattern 8) ∧
     (get_current_traffic_pattern 8).1 ≤ (get_current_traffic_pattern 8).2) :=
  ⟨by decide, pattern_lookup_total 8 (by decide)⟩

/-- C1, counterexample: a worker cancelled before its first attempt (stop
flag observed clear at the first loop-top check) increments
failed_requests without ever incrementing total_requests, so from the
initial stats the aggregate ends at rest with successful_requests +
failed_requests = 1 > 0 = total_requests, violating the claimed
invariant and the claimed at-rest equality. -/
theorem stats_invariant_counterexample :
    (send_traffic_data_for_location envStopped stats_init).stats.successful_requests
      + (send_traffic_data_for_location envStopped stats_init).stats.failed_requests
      > (send_traffic_data_for_location envStopped stats_init).stats.total_requests := by
  decide

/-- C1, amended: per completed delivery, total_requests grows by exactly
the number of attempts issued (one per attempt, retries included) and
successful_requests + failed_requests grows by exactly one; the
inequality successful + failed ≤ total is preserved whenever the delivery
issued at least one attempt, and at-rest equality is preserved exactly
when the delivery resolved on its first attempt; but a delivery cancelled
before its first attempt issues no attempt while still incrementing
failed_requests, which is what breaks the claimed invariant. -/
theorem stats_invariant_amended (env : DeliveryEnv) (s : Stats) :
    (send_traffic_data_for_location env s).stats.total_requests
      = s.total_requests + (send_traffic_data_for_location env s).attempts ∧
    (send_traffic_data_for_location env s).stats.successful_requests
        + (send_traffic_data_for_location env s).stats.failed_requests
      = s.successful_requests + s.failed_requests + 1 ∧
    (1 ≤ (send_traffic_data_for_location env s).attempts →
      s.successful_requests + s.failed_requests ≤ s.total_requests →
      (send_traffic_data_for_location env s).stats.successful_requests
          + (send_traffic_data_for_location env s).stats.failed_requests
        ≤ (send_traffic_data_for_location env s).stats.total_requests) ∧
    ((send_traffic_data_for_location env s).attempts = 1 →
      s.successful_requests + s.failed_requests = s.total_requests →
      (send_traffic_data_for_location env s).stats.successful_requests
          + (send_traffic_data_for_location env s).stats.failed_requests
        = (send_traffic_data_for_location env s).stats.total_requests) ∧
    (env.runningAtLoop 0 = false →
      (send_traffic_data_for_location env s).attempts = 0) := by
  have h := send_loop_delta env MAX_RETRIES 0 s 0 []
  rw [show send_loop env MAX_RETRIES 0 s 0 []
      = send_traffic_data_for_location env s from rfl] at h
  obtain ⟨h1, h2, h3, h4, _⟩ := h
  have hsum : (send_traffic_data_for_location env s).stats.successful_requests
      + (send_traffic_data_for_location env s).stats.failed_requests
      = s.successful_requests + s.failed_requests + 1 := by
    cases hok : (send_traffic_data_for_location env s).ok
    · have := h4 hok
      omega
    · have := h3 hok
      omega
  refine ⟨by omega, hsum, by omega, by omega, ?_⟩
  intro hstop
  rw [send_traffic_data_for_location,
    send_loop_not_running env MAX_RETRIES 0 s 0 [] hstop]

/-- Witness for stats_invariant_amended: a delivery that succeeds on its
first attempt from the initial stats makes exactly one attempt and
preserves at-rest equality (1 + 0 = 1). -/
theorem stats_invariant_amended_witness :
    (send_traffic_data_for_location envAllSuccess stats_init).stats.total_requests
      = stats_init.total_requests
        + (send_traffic_data_for_location envAllSuccess stats_init).attempts ∧
    (send_traffic_data_for_location envAllSuccess stats_init).stats.successful_requests
        + (send_traffic_data_for_location envAllSuccess stats_init).stats.failed_requests
      = (send_traffic_data_for_location envAllSuccess stats_init).stats.total_requests :=
  ⟨(stats_invariant_amended envAllSuccess stats_init).1,
   (stats_invariant_amended envAllSuccess stats_init).2.2.2.1 (by decide) (by decide)⟩

/-- C2: whenever the worker observes the stop flag clear at the top of
its attempt loop, it issues no network attempt from that point on
(attempts is unchanged), schedules no further retry backoff (sleeps is
unchanged), increments failed_requests exactly once (not twice), and
returns failure. -/
theorem worker_stop_no_attempt (env : DeliveryEnv) (fuel retries : Nat)
    (s : Stats) (attempts : Nat) (sleeps : List Nat)
    (h : env.runningAtLoop retries = false) :
    send_loop env fuel retries s attempts sleeps
      = { ok := false, stats := increment_stat_failed s,
          attempts := attempts, sleeps := sleeps } :=
  send_loop_not_running env fuel retries s attempts sleeps h

/-- Witness for worker_stop_no_attempt: the fully stopped environment at
the entry point of the worker. -/
theorem worker_stop_no_attempt_witness :
    envStopped.runningAtLoop 0 = false ∧
    send_loop envStopped MAX_RETRIES 0 stats_init 0 []
      = { ok := false, stats := increment_stat_failed stats_init,
          attempts := 0, sleeps := [] } :=
  ⟨rfl, worker_stop_no_attempt envStopped MAX_RETRIES 0 stats_init 0 [] rfl⟩

/-- C10: every invocation of the per-location delivery function moves the
success/failure counters by exactly one between them: it returns true iff
it incremented successful_requests exactly once leaving failed_requests
alone, and returns false iff it incremented failed_requests exactly once
leaving successful_requests alone; when the stop flag prevents any
attempt, failed_requests is still incremented once while total_requests
is not incremented at all. -/
theorem worker_counter_exactness (env : DeliveryEnv) (s : Stats) :
    ((send_traffic_data_for_location env s).ok = true ↔
      (send_traffic_data_for_location env s).stats.successful_requests
          = s.successful_requests + 1 ∧
      (send_traffic_data_for_location env s).stats.failed_requests
          = s.failed_requests) ∧
    ((send_traffic_data_for_location env s).ok = false ↔
      (send_traffic_data_for_location env s).stats.failed_requests
          = s.failed_requests + 1 ∧
      (send_traffic_data_for_location env s).stats.successful_requests
          = s.successful_requests) ∧
    (env.runningAtLoop 0 = false →
      (send_traffic_data_for_location env s).stats.total_requests
          = s.total_requests ∧
      (send_traffic_data_for_location env s).ok = false ∧
      (send_traffic_data_for_location env s).stats.failed_requests
          = s.failed_requests + 1) := by
  have h := send_loop_delta env MAX_RETRIES 0 s 0 []
  rw [show send_loop env MAX_RETRIES 0 s 0 []
      = send_traffic_data_for_location env s from rfl] at h
  obtain ⟨h1, h2, h3, h4, _⟩ := h
  refine ⟨⟨fun hok => ⟨(h3 hok).1, (h3 hok).2.1⟩, ?_⟩,
    ⟨fun hok => ⟨(h4 hok).1, (h4 hok).2⟩, ?_⟩, ?_⟩
  · intro hc
    cases hok : (send_traffic_data_for_location env s).ok
    · have := h4 hok
      omega
    · rfl
  · intro hc
    cases hok : (send_traffic_data_for_location env s).ok
    · rfl
    · have := h3 hok
      omega
  · intro hstop
    rw [send_traffic_data_for_location,
      send_loop_not_running env MAX_RETRIES 0 s 0 [] hstop]
    simp [increment_stat_failed]

/-- Witness for worker_counter_exactness: the cancelled-before-any-attempt
delivery from the initial stats increments failed_requests to 1 but
leaves total_requests at 0. -/
theorem worker_counter_exactness_witness :
    (send_traffic_data_for_location envStopped stats_init).stats.total_requests
        = stats_init.total_requests ∧
    (send_traffic_data_for_location envStopped stats_init).ok = false ∧
    (send_traffic_data_for_location envStopped stats_init).stats.failed_requests
        = stats_init.failed_requests + 1 :=
  (worker_counter_exactness envStopped stats_init).2.2 rfl

/-- C3: a delivery whose every attempt receives a non-success outcome
while the running flag stays set performs exactly MAX_RETRIES attempts,
sleeping RETRY_BACKOFF ^ 1, ..., RETRY_BACKOFF ^ (MAX_RETRIES - 1)
seconds between consecutive attempts and not after the last one, then
increments failed_requests once and returns failure. -/
theorem worker_exhausts_retries (env : DeliveryEnv) (s : Stats)
    (hout : ∀ k, k < MAX_RETRIES → response_is_success (env.outcomes k) = false)
    (hrun : ∀ k, k < MAX_RETRIES → env.runningAtLoop k = true)
    (hsleep : ∀ k, k < MAX_RETRIES → env.runningAtSleep k = true) :
    (send_traffic_data_for_location env s).attempts = MAX_RETRIES ∧
    (send_traffic_data_for_location env s).sleeps
      = [RETRY_BACKOFF ^ 1, RETRY_BACKOFF ^ 2] ∧
    (send_traffic_data_for_location env s).ok = false ∧
    (send_traffic_data_for_location env s).stats.failed_requests
      = s.failed_requests + 1 ∧
    (send_traffic_data_for_location env s).stats.total_requests
      = s.total_requests + MAX_RETRIES := by
  have h0 := hout 0 (by decide)
  have h1 := hout 1 (by decide)
  have h2 := hout 2 (by decide)
  have r0 := hrun 0 (by decide)
  have r1 := hrun 1 (by decide)
  have r2 := hrun 2 (by decide)
  have b1 := hsleep 1 (by decide)
  have b2 := hsleep 2 (by decide)
  simp [send_traffic_data_for_location, send_loop, MAX_RETRIES, RETRY_BACKOFF,
    h0, h1, h2, r0, r1, r2, b1, b2, increment_stat_total, increment_stat_failed]

/-- Witness for worker_exhausts_retries: every attempt times out; the
worker makes 3 attempts with sleeps of 2 and 4 seconds. -/
theorem worker_exhausts_retries_witness :
    (send_traffic_data_for_location envAllFail stats_init).attempts = MAX_RETRIES ∧
    (send_traffic_data_for_location envAllFail stats_init).sleeps
      = [RETRY_BACKOFF ^ 1, RETRY_BACKOFF ^ 2] ∧
    (send_traffic_data_for_location envAllFail stats_init).ok = false :=
  ⟨(worker_exhausts_retries envAllFail stats_init (fun _ _ => rfl)
      (fun _ _ => rfl) (fun _ _ => rfl)).1,
   (worker_exhausts_retries envAllFail stats_init (fun _ _ => rfl)
      (fun _ _ => rfl) (fun _ _ => rfl)).2.1,
   (worker_exhausts_retries envAllFail stats_init (fun _ _ => rfl)
      (fun _ _ => rfl) (fun _ _ => rfl)).2.2.1⟩

/-- C9: an attempt that receives a response with a success status code
(200 or 201) whose body does not parse is still a success: the worker
increments successful_requests, records last_success, returns true after
that single attempt, and the parse failure is never counted as a
failure (failed_requests is unchanged). -/
theorem unparsable_success_body (env : DeliveryEnv) (s : Stats) (code : Nat)
    (hcode : code = 200 ∨ code = 201)
    (hout : env.outcomes 0 = AttemptOutcome.response code false)
    (hrun : env.runningAtLoop 0 = true) :
    (send_traffic_data_for_location env s).ok = true ∧
    (send_traffic_data_for_location env s).stats.successful_requests
      = s.successful_requests + 1 ∧
    (send_traffic_data_for_location env s).stats.failed_requests
      = s.failed_requests ∧
    (send_traffic_data_for_location env s).stats.last_success
      = some (env.now 0) ∧
    (send_traffic_data_for_location env s).attempts = 1 := by
  have hs : response_is_success (env.outcomes 0) = true := by
    rw [hout]
    rcases hcode with h | h <;> simp [response_is_success, h]
  simp [send_traffic_data_for_location, send_loop, MAX_RETRIES, hrun, hs,
    increment_stat_total, increment_stat_successful, update_stat_last_success]

/-- Witness for unparsable_success_body: first attempt answers 201 with an
unparsable body at clock value 7. -/
theorem unparsable_success_body_witness :
    (send_traffic_data_for_location envSuccessUnparsable stats_init).ok = true ∧
    (send_traffic_data_for_location envSuccessUnparsable stats_init).stats.successful_requests
      = stats_init.successful_requests + 1 ∧
    (send_traffic_data_for_location envSuccessUnparsable stats_init).stats.last_success
      = some 7 := by
  have h := unparsable_success_body envSuccessUnparsable stats_init 201
    (Or.inr rfl) rfl rfl
  exact ⟨h.1, h.2.1, h.2.2.2.1⟩

/-- C5: after a batch over the monitored locations completes, whatever
the per-location outcomes, locations_sent equals the location count,
batch_count has grown by exactly one, and every location contributed
exactly one terminal outcome to the success/failure counters (so no
individual failure aborts the batch or makes the batch retry a
location). -/
theorem batch_counters (benv : BatchEnv) (s : Stats) :
    (send_data_for_all_locations benv s).locations_sent = LOCATIONS.length ∧
    (send_data_for_all_locations benv s).batch_count = s.batch_count + 1 ∧
    (send_data_for_all_locations benv s).successful_requests
        + (send_data_for_all_locations benv s).failed_requests
      = s.successful_requests + s.failed_requests + LOCATIONS.length := by
  have h := foldl_deliveries_delta benv LOCATIONS s
  refine ⟨rfl, ?_, ?_⟩
  · simp only [send_data_for_all_locations, increment_stat_batch_count,
      update_stat_locations_sent]
    rw [h.2.2.1]
  · simpa only [send_data_for_all_locations, increment_stat_batch_count,
      update_stat_locations_sent] using h.1

/-- C8, counterexample: when the loop terminates because the /stop route
cleared the running flag, the final stats report is performed but the
loop does not set status to stopped: the final status is the value the
route wrote, stopped_by_api. -/
theorem scheduler_stop_status_counterexample :
    (run_simulation [LoopEvent.batch ⟨fun _ => envAllSuccess⟩]
        (stop_simulation_route ⟨stats_init, true⟩)).1.stats.status
      = "stopped_by_api" ∧
    "stopped_by_api" ≠ "stopped" ∧
    (run_simulation [LoopEvent.batch ⟨fun _ => envAllSuccess⟩]
        (stop_simulation_route ⟨stats_init, true⟩)).2
      = [update_stat_status stats_init "stopped_by_api"] := by
  decide

/-- C8, amended: every termination of run_simulation ends with exactly one
final stats report of the final state (the finally block).  When the loop
exits because the running flag is clear it changes nothing else, leaving
status as the stopper recorded it; the loop writes status stopped only
when terminated by a keyboard interrupt; an unexpected internal fault
writes status error and the final stats report is still performed rather
than the process crashing. -/
theorem scheduler_termination_amended (events : List LoopEvent) (st : SimState) :
    (run_simulation events st).2.getLast? = some (run_simulation events st).1.stats ∧
    (st.running = false → run_simulation events st = (st, [st.stats])) ∧
    (st.running = true →
      (run_simulation (LoopEvent.interrupt :: events) st).1.stats.status = "stopped" ∧
      (run_simulation (LoopEvent.interrupt :: events) st).1.running = false ∧
      (run_simulation (LoopEvent.fault :: events) st).1.stats.status = "error" ∧
      (run_simulation (LoopEvent.fault :: events) st).2
        = [update_stat_status st.stats "error"]) := by
  refine ⟨?_, ?_, ?_⟩
  · simp [run_simulation]
  · intro h
    cases events with
    | nil => simp [run_simulation, run_loop]
    | cons e rest => simp [run_simulation, run_loop, h]
  · intro h
    refine ⟨?_, ?_, ?_, ?_⟩ <;>
      simp [run_simulation, run_loop, h, update_stat_status]

/-- Witness for scheduler_termination_amended: from a running initial
state, a fault ends with status error and an interrupt with status
stopped. -/
theorem scheduler_termination_amended_witness :
    (run_simulation [LoopEvent.fault] ⟨stats_init, true⟩).1.stats.status = "error" ∧
    (run_simulation [LoopEvent.interrupt] ⟨stats_init, true⟩).1.stats.status
      = "stopped" :=
  ⟨((scheduler_termination_amended [] ⟨stats_init, true⟩).2.2 rfl).2.2.1,
   ((scheduler_termination_amended [] ⟨stats_init, true⟩).2.2 rfl).1⟩

/-! ## Sample generator lemmas and claims -/

/-- C4, counterexample: for vehicles = 8 at hour 0 (a value the night
range scaled by the Ikoyi factor can produce), a trend of -10 (within the
documented range {-10..10} for hour 0) and a noise of 15 (within
{-15..15}), the code yields a prediction of 25, while the claimed
single-floor formula vehicles + trend + noise floored at 10 gives 13:
the code floors at 10 after the trend and then adds the noise on top of
that intermediate floor. -/
theorem prediction_floor_counterexample :
    (trend_range 0).1 ≤ -10 ∧ (-10 : Int) ≤ (trend_range 0).2 ∧
    ((-15 : Int) ≤ 15 ∧ (15 : Int) ≤ 15) ∧
    generate_prediction 8 0 (-10) 15 = 25 ∧
    spec_prediction 8 (-10) 15 = 13 ∧
    generate_prediction 8 0 (-10) 15 ≠ spec_prediction 8 (-10) 15 := by
  decide

/-- C4, amended: the generated prediction is
max(10, max(10, vehicles + trend) + noise): the floor at 10 is applied
once after the trend term and again after the noise term, so the result
is always at least 10, and it agrees with the claimed single-floor
formula exactly whenever vehicles + trend is at least 10 (so the
intermediate floor does not engage). -/
theorem prediction_floor_amended (current_vehicles : Int) (hour : Nat)
    (trend prediction_variation : Int) :
    10 ≤ generate_prediction current_vehicles hour trend prediction_variation ∧
    generate_prediction current_vehicles hour trend prediction_variation
      = max 10 (max 10 (current_vehicles + trend) + prediction_variation) ∧
    (10 ≤ current_vehicles + trend →
      generate_prediction current_vehicles hour trend prediction_variation
        = spec_prediction current_vehicles trend prediction_variation) := by
  refine ⟨le_max_left _ _, rfl, ?_⟩
  intro h
  simp only [generate_prediction, spec_prediction]
  rw [max_eq_right h]

/-- Witness for prediction_floor_amended: a morning-peak sample where the
intermediate floor does not engage and the two formulas agree. -/
theorem prediction_floor_amended_witness :
    10 ≤ generate_prediction 100 8 5 (-15) ∧
    generate_prediction 100 8 5 (-15) = spec_prediction 100 5 (-15) :=
  ⟨(prediction_floor_amended 100 8 5 (-15)).1,
   (prediction_floor_amended 100 8 5 (-15)).2.2 (by decide)⟩

lemma traffic_patterns_ranges_le :
    ∀ p ∈ TRAFFIC_PATTERNS, p.vehicles.1 ≤ p.vehicles.2 := by
  decide

/-- The pattern lookup always returns a range with min ≤ max, whatever
the hour. -/
lemma pattern_vehicles_le (hour : Nat) :
    (get_current_traffic_pattern hour).1 ≤ (get_current_traffic_pattern hour).2 := by
  unfold get_current_traffic_pattern
  cases h1 : TRAFFIC_PATTERNS.find? (pattern_matches hour) with
  | some p => exact traffic_patterns_ranges_le p (List.mem_of_find?_eq_some h1)
  | none =>
    cases h2 : TRAFFIC_PATTERNS.find? (fun p => p.name == "night") with
    | some p => exact traffic_patterns_ranges_le p (List.mem_of_find?_eq_some h2)
    | none => exact le_refl 0

lemma location_factors_nonneg : ∀ p ∈ location_factors, 0 ≤ p.2 := by
  intro p hp
  unfold location_factors at hp
  fin_cases hp <;> norm_num

lemma location_factor_nonneg (location : String) : 0 ≤ location_factor location := by
  unfold location_factor
  cases h : location_factors.find? (fun p => p.1 == location) with
  | some p => exact location_factors_nonneg p (List.mem_of_find?_eq_some h)
  | none => norm_num

lemma pyint_nonneg (q : ℚ) (h : 0 ≤ q) : 0 ≤ pyint q := by
  simp only [pyint, if_pos h]
  exact Int.floor_nonneg.mpr h

lemma pyint_le_pyint (a b : ℚ) (ha : 0 ≤ a) (hab : a ≤ b) : pyint a ≤ pyint b := by
  simp only [pyint, if_pos ha, if_pos (ha.trans hab)]
  exact Int.floor_le_floor hab

lemma special_events_multiplier_lb :
    ∀ ev ∈ SPECIAL_EVENTS, 1 ≤ ev.multiplier.1 := by
  intro ev hev
  unfold SPECIAL_EVENTS at hev
  fin_cases hev <;> norm_num

lemma foldl_event_ge_one (l : List (SpecialEvent × (ℚ × ℚ)))
    (h : ∀ p ∈ l, 1 ≤ p.2.2) :
    ∀ acc : ℚ, 1 ≤ acc →
      1 ≤ l.foldl (fun multiplier p =>
        if p.2.1 < p.1.probability then multiplier * p.2.2 else multiplier) acc := by
  induction l with
  | nil =>
    intro acc hacc
    simpa using hacc
  | cons p t ih =>
    intro acc hacc
    simp only [List.foldl_cons]
    apply ih (fun q hq => h q (List.mem_cons_of_mem _ hq))
    by_cases hp : p.2.1 < p.1.probability
    · rw [if_pos hp]
      have hd : 1 ≤ p.2.2 := h p (List.mem_cons_self _ _)
      nlinarith
    · rw [if_neg hp]
      exact hacc

/-- Within the support of the randomness, the compounded special-event
multiplier is at least 1: the running product starts at 1 and every
configured multiplier range has lower bound at least 1. -/
lemma check_special_events_ge_one (draws : List (ℚ × ℚ))
    (h : valid_event_draws draws) : 1 ≤ check_special_events draws := by
  unfold check_special_events
  apply foldl_event_ge_one
  · intro p hp
    obtain ⟨ev, d⟩ := p
    have h1 := (h ⟨ev, d⟩ hp).2.2.1
    have h2 := special_events_multiplier_lb ev (List.of_mem_zip hp).1
    exact h2.trans h1
  · norm_num

/-- C7: within the support of the randomness, the final integer range of
get_vehicle_count always satisfies min ≤ max (int() truncation of both
bounds scaled first by a nonnegative location factor and then by the
special-event multiplier, which is at least 1, preserves the order), so
the uniform draw never fails and the vehicle count is produced.  In
particular the clamp-to-min case of the claim is vacuous: the range
never collapses to max < min, which is how the min ≤ max precondition of
random.randint is met. -/
theorem vehicle_draw_safe (hour : Nat) (location : String)
    (eventDraws : List (ℚ × ℚ)) (vehicleSeed : Nat)
    (trend prediction_variation : Int)
    (h : valid_event_draws eventDraws) :
    (gvc_final_range hour location eventDraws).1
      ≤ (gvc_final_range hour location eventDraws).2 ∧
    (get_vehicle_count hour location eventDraws vehicleSeed trend
        prediction_variation).isSome = true := by
  have hpat := pattern_vehicles_le hour
  have hlf := location_factor_nonneg location
  have hm := check_special_events_ge_one eventDraws h
  have hm0 : (0 : ℚ) ≤ check_special_events eventDraws := by linarith
  have hmin0 : (0 : ℚ)
      ≤ ((get_current_traffic_pattern hour).1 : ℚ) * location_factor location :=
    mul_nonneg (Nat.cast_nonneg _) hlf
  have hminmax : ((get_current_traffic_pattern hour).1 : ℚ) * location_factor location
      ≤ ((get_current_traffic_pattern hour).2 : ℚ) * location_factor location :=
    mul_le_mul_of_nonneg_right (by exact_mod_cast hpat) hlf
  have hadjmin : 0 ≤ pyint (((get_current_traffic_pattern hour).1 : ℚ)
      * location_factor location) :=
    pyint_nonneg _ hmin0
  have hadj : pyint (((get_current_traffic_pattern hour).1 : ℚ)
        * location_factor location)
      ≤ pyint (((get_current_traffic_pattern hour).2 : ℚ)
        * location_factor location) :=
    pyint_le_pyint _ _ hmin0 hminmax
  have hfmin0 : (0 : ℚ)
      ≤ ((pyint (((get_current_traffic_pattern hour).1 : ℚ)
          * location_factor location) : ℚ)) * check_special_events eventDraws :=
    mul_nonneg (by exact_mod_cast hadjmin) hm0
  have hf : ((pyint (((get_current_traffic_pattern hour).1 : ℚ)
          * location_factor location) : ℚ)) * check_special_events eventDraws
      ≤ ((pyint (((get_current_traffic_pattern hour).2 : ℚ)
          * location_factor location) : ℚ)) * check_special_events eventDraws :=
    mul_le_mul_of_nonneg_right (by exact_mod_cast hadj) hm0
  have hfinal : (gvc_final_range hour location eventDraws).1
      ≤ (gvc_final_range hour location eventDraws).2 := by
    simp only [gvc_final_range]
    exact pyint_le_pyint _ _ hfmin0 hf
  refine ⟨hfinal, ?_⟩
  have hr : randint (gvc_final_range hour location eventDraws).1
      (gvc_final_range hour location eventDraws).2 vehicleSeed
      = some ((gvc_final_range hour location eventDraws).1
          + (vehicleSeed : Int)
            % ((gvc_final_range hour location eventDraws).2
              - (gvc_final_range hour location eventDraws).1 + 1)) := by
    unfold randint
    rw [if_neg (not_lt.mpr hfinal)]
  unfold get_vehicle_count
  rw [hr]
  rfl

/-- A concrete draw trace in the support: every roll is one half (so no
event triggers) and each sampled multiplier sits at the lower bound of
its rule's range. -/
lemma valid_event_draws_test :
    valid_event_draws
      [((1 : ℚ) / 2, 2), ((1 : ℚ) / 2, (3 : ℚ) / 2),
       ((1 : ℚ) / 2, (9 : ℚ) / 5), ((1 : ℚ) / 2, (13 : ℚ) / 10)] := by
  unfold valid_event_draws
  intro p hp
  simp only [SPECIAL_EVENTS, List.zip_cons_cons, List.zip_nil_right] at hp
  fin_cases hp <;> norm_num

/-- Witness for vehicle_draw_safe: morning peak at Ikeja with rolls of
one half (no event triggers) and each sampled multiplier at the lower
bound of its range. -/
theorem vehicle_draw_safe_witness :
    valid_event_draws
      [((1 : ℚ) / 2, 2), ((1 : ℚ) / 2, (3 : ℚ) / 2),
       ((1 : ℚ) / 2, (9 : ℚ) / 5), ((1 : ℚ) / 2, (13 : ℚ) / 10)] ∧
    (get_vehicle_count 8 "Ikeja"
      [((1 : ℚ) / 2, 2), ((1 : ℚ) / 2, (3 : ℚ) / 2),
       ((1 : ℚ) / 2, (9 : ℚ) / 5), ((1 : ℚ) / 2, (13 : ℚ) / 10)]
      0 10 0).isSome = true :=
  ⟨valid_event_draws_test,
   (vehicle_draw_safe 8 "Ikeja"
      [((1 : ℚ) / 2, 2), ((1 : ℚ) / 2, (3 : ℚ) / 2),
       ((1 : ℚ) / 2, (9 : ℚ) / 5), ((1 : ℚ) / 2, (13 : ℚ) / 10)]
      0 10 0 valid_event_draws_test).2⟩

end TrafficBackend
